import Mathlib

/-!
Verification of the move-n-shoot simulation core (src/main.py) against its
natural-language specification.

Modelling conventions:
* Python floats are idealised as rationals (ℚ).  Every `x ** 0.5` in the
  source is modelled by an explicit square-root oracle `rt : ℚ → ℚ` passed to
  the function; theorems assume `rt` is exact at the arguments actually used
  (stated as hypotheses such as `rt v = s` together with `s * s = v`).
* Python raises `ZeroDivisionError` on `x / 0.0`; the only division site in
  the core that is not syntactically guarded by a positivity test is the
  bullet-speed division in `Player.update`, so `Player.update` returns
  `Option`, `none` modelling the uncaught exception (a crash).
* `float('inf')` appears only in `Game.parse_player_collision`; the values
  that can become non-finite there (the backtracked positions) are modelled by
  the extended type `XF` (finite / +inf / -inf / NaN), with IEEE-754 rules for
  the single arithmetic pattern the code performs on them
  (`pos - vel * delta_t` with `delta_t = inf`).
* pygame `Rect`s are idealised as rational axis-aligned boxes centred at the
  owner's position; `colliderect` uses pygame's strict inequalities.
* The sprite sizes (loaded from bmp files at run time) are carried as the
  fields `imgW`, `imgH` of a player.
-/

/-- A 2-component vector of rationals (Python pair/list of floats). -/
structure Vec where
  x : ℚ
  y : ℚ
deriving DecidableEq

/-- Mirror of Python's implicit bool-to-number coercion in arithmetic. -/
def b2q (b : Bool) : ℚ := if b then 1 else 0

/-- State of class `Bullet` (src/main.py lines 7-45): position, velocity and
the `was_shot` liveness flag.  The image fields are render-only and omitted;
the bullet image is scaled to 20x20, which fixes its rect size. -/
structure Bullet where
  position : Vec
  velocity : Vec
  was_shot : Bool
deriving DecidableEq

/-- `Bullet.reset_bullet` (lines 28-31): park at (-100, 100), zero the
velocity, clear `was_shot`. -/
def Bullet.reset_bullet : Bullet :=
  { position := ⟨-100, 100⟩, velocity := ⟨0, 0⟩, was_shot := false }

/-- `Bullet.update` (lines 33-36): explicit Euler step, only when live. -/
def Bullet.update (delta_t : ℚ) (b : Bullet) : Bullet :=
  if b.was_shot then
    { b with position := ⟨b.position.x + b.velocity.x * delta_t,
                          b.position.y + b.velocity.y * delta_t⟩ }
  else b

/-- Axis-aligned box, idealising pygame `Rect` over ℚ. -/
structure Rect where
  left : ℚ
  top : ℚ
  right : ℚ
  bottom : ℚ
deriving DecidableEq

/-- pygame `Rect.colliderect`: strict overlap on both axes (touching edges do
not collide). -/
def Rect.colliderect (a b : Rect) : Bool :=
  decide (a.left < b.right) && decide (a.right > b.left) &&
  decide (a.top < b.bottom) && decide (a.bottom > b.top)

/-- `Bullet.get_rect` (lines 42-45): the bullet image is 20x20 (line 18), and
the rect is centred at the bullet's position. -/
def Bullet.get_rect (b : Bullet) : Rect :=
  ⟨b.position.x - 10, b.position.y - 10, b.position.x + 10, b.position.y + 10⟩

/-- The per-tick action dictionary handed to `Player.update` (see the
docstring at lines 170-182).  `mouse_pos` models `pygame.mouse.get_pos()`,
the absolute pointer position consumed when `ch_mouse` is set. -/
structure Actions where
  up : Bool
  down : Bool
  left : Bool
  right : Bool
  shoot : Bool
  ch_up : Bool
  ch_down : Bool
  ch_left : Bool
  ch_right : Bool
  ch_mouse : Bool
  mouse_pos : Vec
deriving DecidableEq

/-- State of class `Player` (lines 48-164): kinematic state, crosshair, owned
bullet, score, and the sprite size (width/height of `img`, loaded at run
time, hence carried as data). -/
structure Player where
  position : Vec
  velocity : Vec
  acceleration : Vec
  crosshair : Vec
  bullet : Bullet
  score : ℕ
  imgW : ℚ
  imgH : ℚ
deriving DecidableEq

/-- `self.MAX_SPEED` (line 89). -/
def Player.MAX_SPEED : ℚ := 1500

/-- `self.SHOOTING_SPEED` (line 90). -/
def Player.SHOOTING_SPEED : ℚ := 3000

/-- `Player.get_rect` (lines 152-164): sprite-sized box centred at the
player's position. -/
def Player.get_rect (p : Player) : Rect :=
  ⟨p.position.x - p.imgW / 2, p.position.y - p.imgH / 2,
   p.position.x + p.imgW / 2, p.position.y + p.imgH / 2⟩

/-- Position integration, lines 197-198:
`pos += vel*dt + accel*dt**2/2` componentwise. -/
def Player.integPos (p : Player) (delta_t : ℚ) : Vec :=
  ⟨p.position.x + p.velocity.x * delta_t + p.acceleration.x * delta_t ^ 2 / 2,
   p.position.y + p.velocity.y * delta_t + p.acceleration.y * delta_t ^ 2 / 2⟩

/-- Velocity integration, lines 201-202: `vel += accel*dt` componentwise. -/
def Player.integVel (p : Player) (delta_t : ℚ) : Vec :=
  ⟨p.velocity.x + p.acceleration.x * delta_t,
   p.velocity.y + p.acceleration.y * delta_t⟩

/-- `Player.update` (lines 166-254), with `rt` standing for `** 0.5`.
The source mutates fields in order; each `let` mirrors one statement block.
The bullet-speed division (lines 246-247) is the one division that Python
does not guard, hence the `Option`: `none` models the `ZeroDivisionError`
raised when the crosshair coincides with the (integrated) position. -/
def Player.update (rt : ℚ → ℚ) (actions : Actions) (delta_t : ℚ)
    (p : Player) : Option Player :=
  let pos := Player.integPos p delta_t
  let vel := Player.integVel p delta_t
  -- lines 205-212: thrust and new acceleration (alpha = 20000)
  let thrust : Vec := ⟨b2q actions.right - b2q actions.left,
                       b2q actions.down - b2q actions.up⟩
  let thrust_mag := rt (thrust.x ^ 2 + thrust.y ^ 2)
  let acc : Vec :=
    if 0 < thrust_mag then
      ⟨20000 * thrust.x / thrust_mag, 20000 * thrust.y / thrust_mag⟩
    else ⟨0, 0⟩
  -- lines 214-219: speed limit (speed is computed once and reused below)
  let speed := rt (vel.x ^ 2 + vel.y ^ 2)
  let velA : Vec :=
    if Player.MAX_SPEED < speed then
      ⟨vel.x * (Player.MAX_SPEED / speed), vel.y * (Player.MAX_SPEED / speed)⟩
    else vel
  -- lines 221-223: stop threshold
  let velB : Vec := if speed < 30 then ⟨0, 0⟩ else velA
  -- lines 225-228: drag (k = 3000), using the stale pre-clamp speed
  let accB : Vec :=
    if 1 / 10 < speed then
      ⟨acc.x - velB.x / speed * 3000, acc.y - velB.y / speed * 3000⟩
    else acc
  -- lines 230-236: crosshair (beta = 30)
  let ch : Vec :=
    if actions.ch_mouse then actions.mouse_pos
    else ⟨p.crosshair.x + 30 * (b2q actions.ch_right - b2q actions.ch_left),
          p.crosshair.y + 30 * (b2q actions.ch_down - b2q actions.ch_up)⟩
  -- lines 238-252: shooting; unguarded division by bullet_speed
  let shotB : Option Bullet :=
    if actions.shoot ∧ ¬p.bullet.was_shot then
      let bullet_vel : Vec := ⟨ch.x - pos.x, ch.y - pos.y⟩
      let bullet_speed := rt (bullet_vel.x ^ 2 + bullet_vel.y ^ 2)
      if bullet_speed = 0 then none
      else some { position := pos,
                  velocity := ⟨bullet_vel.x * (Player.SHOOTING_SPEED / bullet_speed),
                               bullet_vel.y * (Player.SHOOTING_SPEED / bullet_speed)⟩,
                  was_shot := true }
    else some p.bullet
  -- line 254: always advance the bullet last
  match shotB with
  | none => none
  | some b =>
      some { position := pos, velocity := velB, acceleration := accB,
             crosshair := ch, bullet := Bullet.update delta_t b,
             score := p.score, imgW := p.imgW, imgH := p.imgH }

/-- The velocity post-processing of lines 214-223 (clamp then stop
threshold) as a function of the integrated velocity alone. -/
def Player.speedSteps (rt : ℚ → ℚ) (v : Vec) : Vec :=
  let speed := rt (v.x ^ 2 + v.y ^ 2)
  let vA : Vec :=
    if Player.MAX_SPEED < speed then
      ⟨v.x * (Player.MAX_SPEED / speed), v.y * (Player.MAX_SPEED / speed)⟩
    else v
  if speed < 30 then ⟨0, 0⟩ else vA

/-- The thrust-to-acceleration map of lines 205-212. -/
def Player.thrustAccel (rt : ℚ → ℚ) (a : Actions) : Vec :=
  let thrust : Vec := ⟨b2q a.right - b2q a.left, b2q a.down - b2q a.up⟩
  let m := rt (thrust.x ^ 2 + thrust.y ^ 2)
  if 0 < m then ⟨20000 * thrust.x / m, 20000 * thrust.y / m⟩ else ⟨0, 0⟩

/-- The acceleration produced by one tick (thrust of lines 205-212 followed
by the drag of lines 225-228), as a function of the actions and the
integrated velocity. -/
def Player.accelSteps (rt : ℚ → ℚ) (a : Actions) (v : Vec) : Vec :=
  let speed := rt (v.x ^ 2 + v.y ^ 2)
  let vB := Player.speedSteps rt v
  if 1 / 10 < speed then
    ⟨(Player.thrustAccel rt a).x - vB.x / speed * 3000,
     (Player.thrustAccel rt a).y - vB.y / speed * 3000⟩
  else Player.thrustAccel rt a

/-- State of class `Game` (lines 277-335) restricted to the simulation core:
screen size and the player list.  Screen, clock, fonts and the key-press
dictionary belong to the excluded I/O shell. -/
structure Game where
  screen_width : ℚ
  screen_height : ℚ
  players : List Player
deriving DecidableEq

/-- `Game.add_player` (lines 321-335): append only while fewer than 2 players
are present.  The freshly constructed `Player` is taken as an argument (its
construction loads images, which is I/O). -/
def Game.add_player (g : Game) (p : Player) : Game :=
  if g.players.length < 2 then { g with players := g.players ++ [p] } else g

/-- Crosshair clamping, lines 387-395.  The four tests run in sequence on the
mutated field, mirrored by the chained lets. -/
def Game.clampCrosshair (w h : ℚ) (p : Player) : Player :=
  let cx0 := if p.crosshair.x < 0 then 0 else p.crosshair.x
  let cx1 := if w < cx0 then w else cx0
  let cy0 := if p.crosshair.y < 0 then 0 else p.crosshair.y
  let cy1 := if h < cy0 then h else cy0
  { p with crosshair := ⟨cx1, cy1⟩ }

/-- Wall collision, lines 397-410.  The rect `r` is computed once (stale for
all four tests), positions are clamped per axis, and the perpendicular
velocity component is inverted and damped by 0.8; a second hit on the same
axis (possible only if the sprite is wider than the screen) damps the
already-flipped component again, as in the source. -/
def Game.wallCollision (w h : ℚ) (p : Player) : Player :=
  let r := Player.get_rect p
  let x0 := if r.left < 0 then p.imgW / 2 else p.position.x
  let vx0 := if r.left < 0 then -p.velocity.x * (8 / 10) else p.velocity.x
  let y0 := if r.top < 0 then p.imgH / 2 else p.position.y
  let vy0 := if r.top < 0 then -p.velocity.y * (8 / 10) else p.velocity.y
  let x1 := if w < r.right then w - p.imgW / 2 else x0
  let vx1 := if w < r.right then -vx0 * (8 / 10) else vx0
  let y1 := if h < r.bottom then h - p.imgH / 2 else y0
  let vy1 := if h < r.bottom then -vy0 * (8 / 10) else vy0
  { p with position := ⟨x1, y1⟩, velocity := ⟨vx1, vy1⟩ }

/-- Bullet wall reset and bullet-vs-opponent hit, lines 412-420.  Note two
source facts this preserves: the rect `r` is captured before the possible
out-of-bounds reset and reused for the hit test, and the hit test does not
consult `was_shot`.  In the hit branch the bullet ends reset regardless of
whether the wall branch already reset it. -/
def Game.bulletPass (w h : ℚ) (opp p : Player) : Player :=
  let r := Bullet.get_rect p.bullet
  let b1 := if r.right < 0 ∨ r.bottom < 0 ∨ w < r.left ∨ h < r.top then
    Bullet.reset_bullet else p.bullet
  if Rect.colliderect r (Player.get_rect opp) then
    { p with bullet := Bullet.reset_bullet, score := p.score + 1 }
  else
    { p with bullet := b1 }

/-- Extended value: the result of the position backtrack in
`Game.parse_player_collision` can leave the finite floats. -/
inductive XF where
  | fin : ℚ → XF
  | pinf : XF
  | ninf : XF
  | nan : XF
deriving DecidableEq

/-- `delta_tx`/`delta_ty` are finite or `float('inf')`; `none` is infinity. -/
def oLT : Option ℚ → Option ℚ → Bool
  | some a, some b => decide (a < b)
  | some _, none => true
  | none, _ => false

/-- Python `min` over the two delta-t candidates (`none` = infinity; no NaN
can reach this computation). -/
def minO : Option ℚ → Option ℚ → Option ℚ
  | some a, some b => some (min a b)
  | some a, none => some a
  | none, b => b

/-- One backtracked position component, `pos - vel * delta_t` (lines
482-485) under IEEE-754 rules when `delta_t` is infinity:
`vel*inf` is ±inf for nonzero `vel` and NaN for `vel = 0`, and subtracting
from a finite `pos` gives ∓inf respectively NaN. -/
def Game.backtrack (pos vel : ℚ) (dt : Option ℚ) : XF :=
  match dt with
  | some t => XF.fin (pos - vel * t)
  | none => if 0 < vel then XF.ninf else if vel < 0 then XF.pinf else XF.nan

/-- The collision-axis flags of lines 459-478 (`is_collision_x`,
`is_collision_y`): the axis with the strictly smaller time-to-impact is the
collision axis; on a tie (including the double-infinity case) both are. -/
def Game.collisionFlags (player1 player2 : Player) : Bool × Bool :=
  let l := player1.imgW
  let delta_x := l - |player1.position.x - player2.position.x|
  let delta_y := l - |player1.position.y - player2.position.y|
  let v_x := |player1.velocity.x - player2.velocity.x|
  let v_y := |player1.velocity.y - player2.velocity.y|
  let delta_tx : Option ℚ := if 0 < v_x then some (delta_x / v_x) else none
  let delta_ty : Option ℚ := if 0 < v_y then some (delta_y / v_y) else none
  if oLT delta_tx delta_ty then (true, false)
  else if oLT delta_ty delta_tx then (false, true)
  else (true, true)

/-- Output of the player-collision resolution: backtracked positions (which
may be non-finite) and swapped velocities. -/
structure PCResult where
  p1x : XF
  p1y : XF
  p2x : XF
  p2y : XF
  v1 : Vec
  v2 : Vec
deriving DecidableEq

/-- `Game.__parse_player_collision` (lines 426-491; the name-mangling
underscores are dropped).  `l` is player 1's rect width (line 454).  The
axis flags are factored into `Game.collisionFlags`, which recomputes the
same `delta_tx`/`delta_ty` used here for the rollback. -/
def Game.parse_player_collision (player1 player2 : Player) : PCResult :=
  let r1 := Player.get_rect player1
  let r2 := Player.get_rect player2
  let l := player1.imgW
  if Rect.colliderect r1 r2 then
    let delta_x := l - |player1.position.x - player2.position.x|
    let delta_y := l - |player1.position.y - player2.position.y|
    let v_x := |player1.velocity.x - player2.velocity.x|
    let v_y := |player1.velocity.y - player2.velocity.y|
    let delta_tx : Option ℚ := if 0 < v_x then some (delta_x / v_x) else none
    let delta_ty : Option ℚ := if 0 < v_y then some (delta_y / v_y) else none
    let fl := Game.collisionFlags player1 player2
    let delta_t := minO delta_tx delta_ty
    { p1x := Game.backtrack player1.position.x player1.velocity.x delta_t
      p1y := Game.backtrack player1.position.y player1.velocity.y delta_t
      p2x := Game.backtrack player2.position.x player2.velocity.x delta_t
      p2y := Game.backtrack player2.position.y player2.velocity.y delta_t
      v1 := ⟨if fl.1 then player2.velocity.x else player1.velocity.x,
             if fl.2 then player2.velocity.y else player1.velocity.y⟩
      v2 := ⟨if fl.1 then player1.velocity.x else player2.velocity.x,
             if fl.2 then player1.velocity.y else player2.velocity.y⟩ }
  else
    { p1x := XF.fin player1.position.x, p1y := XF.fin player1.position.y
      p2x := XF.fin player2.position.x, p2y := XF.fin player2.position.y
      v1 := player1.velocity, v2 := player2.velocity }

/-- Python list indexing with negative wrap-around, as `self.players[1-i]`
performs for `i ≥ 2`; out of range raises IndexError (`none`). -/
def pyGet (l : List Player) (j : ℤ) : Option Player :=
  if 0 ≤ j then l.get? j.toNat
  else if (-j).toNat ≤ l.length then l.get? (l.length - (-j).toNat) else none

/-- The body of the per-player loop of `Game.update_physics` (lines 379-420)
for one player `p` with opponent `opp`: update, crosshair clamp, wall
collision, bullet pass.  `none` propagates a crash in `Player.update`. -/
def Game.physStep (rt : ℚ → ℚ) (a : Actions) (w h : ℚ) (opp p : Player) :
    Option Player :=
  (Player.update rt a (1 / 60) p).map fun p1 =>
    Game.bulletPass w h opp (Game.wallCollision w h (Game.clampCrosshair w h p1))

/-- The `for i, player in enumerate(self.players)` loop of
`Game.update_physics`, updating the list in place; `acts i` supplies the
action vector the external input source returns for player `i`.  The fuel
argument starts at the list length, so the `none` lookup of the loop index
never fires on the initial call.  For a single player the opponent lookup
`players[1-i]` raises IndexError, modelled by `none`. -/
def Game.physLoop (rt : ℚ → ℚ) (acts : ℕ → Actions) (w h : ℚ) :
    ℕ → ℕ → List Player → Option (List Player)
  | _, 0, ps => some ps
  | i, fuel + 1, ps =>
    match ps.get? i with
    | none => some ps
    | some p =>
      match pyGet ps (1 - (i : ℤ)) with
      | none => none
      | some opp =>
        match Game.physStep rt (acts i) w h opp p with
        | none => none
        | some p2 => Game.physLoop rt acts w h (i + 1) fuel (ps.set i p2)

/-- `Game.update_physics` (lines 363-424).  After the per-player loop, with
exactly two players the collision between them is parsed; if the rollback
produced a non-finite position the state leaves the rational model and the
step is `none` (in the source this happens only via the infinite `delta_t`
edge case). -/
def Game.update_physics (rt : ℚ → ℚ) (acts : ℕ → Actions) (g : Game) :
    Option Game :=
  match Game.physLoop rt acts g.screen_width g.screen_height 0
      g.players.length g.players with
  | none => none
  | some ps =>
    match ps with
    | [a, b] =>
      let res := Game.parse_player_collision a b
      match res.p1x, res.p1y, res.p2x, res.p2y with
      | XF.fin x1, XF.fin y1, XF.fin x2, XF.fin y2 =>
        some { g with players :=
          [{ a with position := ⟨x1, y1⟩, velocity := res.v1 },
           { b with position := ⟨x2, y2⟩, velocity := res.v2 }] }
      | _, _, _, _ => none
    | _ => some { g with players := ps }

/-- Reachable game states: a fresh game starts with no players (line 315);
players are added by `add_player`, and ticks run `update_physics`
(`handle_events` and `draw_frame` do not touch the player list). -/
inductive Game.Reachable : Game → Prop
  | start (w h : ℚ) : Game.Reachable ⟨w, h, []⟩
  | add {g : Game} (p : Player) : Game.Reachable g →
      Game.Reachable (Game.add_player g p)
  | phys {g g2 : Game} (rt : ℚ → ℚ) (acts : ℕ → Actions) :
      Game.Reachable g → Game.update_physics rt acts g = some g2 →
      Game.Reachable g2

/-! ## Shared example inputs -/

/-- A square-root oracle exact at the two perfect squares used by the
concrete examples below (and at 0, since `0 ** 0.5 == 0.0`). -/
def rtEx : ℚ → ℚ := fun q =>
  if q = 9000000 then 3000 else if q = 250000 then 500 else 0

/-- The all-false action dictionary (the default `no_action` binding,
lines 138-145). -/
def actNone : Actions :=
  ⟨false, false, false, false, false, false, false, false, false, false, ⟨0, 0⟩⟩

/-- A live bullet parked with zero velocity. -/
def bulletIdle : Bullet := ⟨⟨-100, 100⟩, ⟨0, 0⟩, true⟩

/-- A non-live bullet at the reset parking point. -/
def bulletReady : Bullet := ⟨⟨-100, 100⟩, ⟨0, 0⟩, false⟩

/-! ## Helper lemmas -/

/-- Decomposition of one `Player.update` step: whenever the update does not
crash, the new position is the CA integration of the old state, the new
velocity is the clamp/stop post-processing of the integrated velocity, and
the new acceleration is the thrust/drag recomputation; the score is
untouched.  Neither the position nor the velocity depends on the actions. -/
theorem Player.update_decomp (rt : ℚ → ℚ) (a : Actions) (delta_t : ℚ)
    (p r : Player) (hu : Player.update rt a delta_t p = some r) :
    r.position = Player.integPos p delta_t ∧
    r.velocity = Player.speedSteps rt (Player.integVel p delta_t) ∧
    r.acceleration = Player.accelSteps rt a (Player.integVel p delta_t) ∧
    r.score = p.score := by
  simp only [Player.update] at hu
  split at hu
  · exact absurd hu (by simp)
  · rename_i b hb
    injection hu with hu
    subst hu
    refine ⟨rfl, rfl, rfl, rfl⟩

/-! ## Claims -/

/-- C1: the claim states that a degenerate fire (shoot requested, projectile
not live, crosshair exactly at the actor's position) must not divide by zero
and must not crash.  The source has no guard: lines 245-247 compute
`bullet_speed = 0` and evaluate `SHOOTING_SPEED / bullet_speed`, which raises
`ZeroDivisionError` in Python.  This theorem evaluates the embedded update at
such a state (position = crosshair = (100,100), everything at rest, square
root exact at its only argument 0) and shows it crashes (`none`). -/
theorem C1_degenerate_fire_crashes :
    Player.update (fun _ => 0)
      ⟨false, false, false, false, true, false, false, false, false, false, ⟨0, 0⟩⟩
      (1 / 60)
      ⟨⟨100, 100⟩, ⟨0, 0⟩, ⟨0, 0⟩, ⟨100, 100⟩, bulletReady, 0, 64, 64⟩ = none := by
  norm_num [Player.update, Player.integPos, Player.integVel, Player.MAX_SPEED,
    Player.SHOOTING_SPEED, b2q, bulletReady, Bullet.update]

/-- C7: `Player.update` integrates position and velocity from the
acceleration held before the call, independently of this tick's action
flags: the new position is `pos + vel*dt + accel*dt^2/2`, the new velocity
is the clamp/stop-threshold post-processing (`Player.speedSteps`, which does
not read the actions) of the integrated velocity `vel + accel*dt`, and this
tick's thrust enters only the recomputed acceleration (`Player.accelSteps`),
i.e. takes effect one tick later. -/
theorem C7_one_tick_input_lag (rt : ℚ → ℚ) (a : Actions) (delta_t : ℚ)
    (p r : Player) (hu : Player.update rt a delta_t p = some r) :
    r.position = Player.integPos p delta_t ∧
    r.velocity = Player.speedSteps rt (Player.integVel p delta_t) ∧
    r.acceleration = Player.accelSteps rt a (Player.integVel p delta_t) :=
  ⟨(Player.update_decomp rt a delta_t p r hu).1,
   (Player.update_decomp rt a delta_t p r hu).2.1,
   (Player.update_decomp rt a delta_t p r hu).2.2.1⟩

/-- Concrete input for the C7 witness: at rest except a 3000-unit/s
velocity, no actions. -/
def pW7 : Player := ⟨⟨0, 0⟩, ⟨3000, 0⟩, ⟨0, 0⟩, ⟨500, 500⟩, bulletIdle, 0, 64, 64⟩

/-- Result of one update step on `pW7`. -/
def rW7 : Player := ⟨⟨50, 0⟩, ⟨1500, 0⟩, ⟨-1500, 0⟩, ⟨500, 500⟩, bulletIdle, 0, 64, 64⟩

/-- Witness for C7 at a concrete input. -/
theorem C7_one_tick_input_lag_witness :
    rW7.position = Player.integPos pW7 (1 / 60) ∧
    rW7.velocity = Player.speedSteps rtEx (Player.integVel pW7 (1 / 60)) ∧
    rW7.acceleration = Player.accelSteps rtEx actNone (Player.integVel pW7 (1 / 60)) :=
  C7_one_tick_input_lag rtEx actNone (1 / 60) pW7 rW7 (by
    norm_num [Player.update, Player.integPos, Player.integVel, Player.MAX_SPEED,
      Player.SHOOTING_SPEED, rtEx, actNone, pW7, rW7, b2q, bulletIdle, Bullet.update])

/-- C6: if the magnitude `s` of the integrated velocity (the value the source
computes at line 215, assumed exact: `s * s` is the sum of squares) exceeds
MAX_SPEED = 1500, the updated velocity is the integrated velocity scaled by
`MAX_SPEED / s`: a positive multiple (direction preserved) whose magnitude is
exactly MAX_SPEED (its sum of squares is `MAX_SPEED ^ 2`).  If instead `s` is
between the stop threshold 30 and MAX_SPEED, the velocity is not rescaled. -/
theorem C6_speed_clamp (rt : ℚ → ℚ) (a : Actions) (delta_t : ℚ)
    (p r : Player) (s : ℚ) (hu : Player.update rt a delta_t p = some r)
    (hrt : rt ((Player.integVel p delta_t).x ^ 2 + (Player.integVel p delta_t).y ^ 2) = s)
    (hs : s * s = (Player.integVel p delta_t).x ^ 2 + (Player.integVel p delta_t).y ^ 2) :
    (Player.MAX_SPEED < s →
      r.velocity.x = (Player.integVel p delta_t).x * (Player.MAX_SPEED / s) ∧
      r.velocity.y = (Player.integVel p delta_t).y * (Player.MAX_SPEED / s) ∧
      r.velocity.x ^ 2 + r.velocity.y ^ 2 = Player.MAX_SPEED ^ 2 ∧
      0 < Player.MAX_SPEED / s) ∧
    (30 ≤ s → s ≤ Player.MAX_SPEED → r.velocity = Player.integVel p delta_t) := by
  obtain ⟨-, hv, -, -⟩ := Player.update_decomp rt a delta_t p r hu
  rw [Player.speedSteps] at hv
  simp only [hrt, Player.MAX_SPEED] at hv ⊢
  constructor
  · intro hgt
    have hns : ¬s < 30 := by linarith
    have hs0 : s ≠ 0 := by linarith
    rw [if_neg hns, if_pos hgt] at hv
    rw [hv]
    refine ⟨rfl, rfl, ?_, by positivity⟩
    calc ((Player.integVel p delta_t).x * (1500 / s)) ^ 2 +
          ((Player.integVel p delta_t).y * (1500 / s)) ^ 2
        = ((Player.integVel p delta_t).x ^ 2 +
           (Player.integVel p delta_t).y ^ 2) * (1500 / s) ^ 2 := by ring
      _ = (s * s) * (1500 / s) ^ 2 := by rw [hs]
      _ = 1500 ^ 2 := by field_simp; ring
  · intro h30 hle
    have hns : ¬s < 30 := by linarith
    have hngt : ¬(1500 : ℚ) < s := by linarith
    rw [if_neg hns, if_neg hngt] at hv
    exact hv

/-- Concrete input for the C6 witness: integrated velocity (3000, 0). -/
def pW6 : Player := ⟨⟨20, 30⟩, ⟨3000, 0⟩, ⟨0, 0⟩, ⟨400, 400⟩, bulletIdle, 3, 64, 64⟩

/-- Result of one update step on `pW6`. -/
def rW6 : Player := ⟨⟨70, 30⟩, ⟨1500, 0⟩, ⟨-1500, 0⟩, ⟨400, 400⟩, bulletIdle, 3, 64, 64⟩

/-- Witness for C6: the clamp branch at integrated velocity (3000, 0),
`s = 3000`. -/
theorem C6_speed_clamp_witness :
    rW6.velocity.x = (Player.integVel pW6 (1 / 60)).x * (Player.MAX_SPEED / 3000) ∧
    rW6.velocity.y = (Player.integVel pW6 (1 / 60)).y * (Player.MAX_SPEED / 3000) ∧
    rW6.velocity.x ^ 2 + rW6.velocity.y ^ 2 = Player.MAX_SPEED ^ 2 ∧
    0 < Player.MAX_SPEED / 3000 :=
  (C6_speed_clamp rtEx actNone (1 / 60) pW6 rW6 3000
    (by norm_num [Player.update, Player.integPos, Player.integVel, Player.MAX_SPEED,
      Player.SHOOTING_SPEED, rtEx, actNone, pW6, rW6, b2q, bulletIdle, Bullet.update])
    (by norm_num [Player.integVel, pW6, rtEx])
    (by norm_num [Player.integVel, pW6])).1
    (by norm_num [Player.MAX_SPEED])

/-- C4 counterexample: the claim asserts the drag subtracted from the
acceleration always has magnitude exactly 3000 when the post-clamp velocity
magnitude exceeds 0.1.  Take a player whose integrated velocity is (3000, 0):
the speed computed at line 215 is 3000, the clamp (lines 216-219) rescales
the velocity to (1500, 0), but the drag (lines 226-228) divides the *clamped*
velocity by the *stale pre-clamp* speed 3000, subtracting (1500, 0) — a
vector of magnitude 1500, not 3000.  With no thrust the claimed acceleration
would be (-3000, 0); the code produces (-1500, 0). -/
theorem C4_counterexample :
    (Player.update rtEx actNone (1 / 60) pW7).map Player.velocity = some ⟨1500, 0⟩ ∧
    Player.thrustAccel rtEx actNone = ⟨0, 0⟩ ∧
    (Player.update rtEx actNone (1 / 60) pW7).map Player.acceleration = some ⟨-1500, 0⟩ ∧
    (Player.update rtEx actNone (1 / 60) pW7).map Player.acceleration ≠
      some ⟨0 - 1500 / 1500 * 3000, 0 - 0 / 1500 * 3000⟩ := by
  refine ⟨?_, ?_, ?_, ?_⟩ <;>
    norm_num [Player.update, Player.thrustAccel, Player.integPos, Player.integVel,
      Player.MAX_SPEED, Player.SHOOTING_SPEED, rtEx, actNone, pW7, b2q, bulletIdle,
      Bullet.update]

/-- C4 amended: when the pre-clamp speed `s` of the integrated velocity `v`
(assumed exactly rooted) lies in `[30, MAX_SPEED]` — so the clamp and the
stop threshold leave the velocity alone and its magnitude still exceeds
0.1 — the update subtracts from the thrust acceleration the drag
`(v / s) * 3000`, a positive multiple of the velocity direction
(`0 < 3000 / s`) of magnitude exactly 3000 (sum of squares `3000 ^ 2`), and
this tick's velocity is left equal to the integrated velocity.  (When
`s > MAX_SPEED` the code divides the clamped velocity by the stale `s`, so
the drag magnitude is `3000 * MAX_SPEED / s < 3000`; see the
counterexample.) -/
theorem C4_amended_drag (rt : ℚ → ℚ) (a : Actions) (delta_t : ℚ)
    (p r : Player) (s : ℚ) (hu : Player.update rt a delta_t p = some r)
    (hrt : rt ((Player.integVel p delta_t).x ^ 2 + (Player.integVel p delta_t).y ^ 2) = s)
    (hs : s * s = (Player.integVel p delta_t).x ^ 2 + (Player.integVel p delta_t).y ^ 2)
    (h30 : 30 ≤ s) (hle : s ≤ Player.MAX_SPEED) :
    r.acceleration.x = (Player.thrustAccel rt a).x -
      (Player.integVel p delta_t).x / s * 3000 ∧
    r.acceleration.y = (Player.thrustAccel rt a).y -
      (Player.integVel p delta_t).y / s * 3000 ∧
    ((Player.integVel p delta_t).x / s * 3000) ^ 2 +
      ((Player.integVel p delta_t).y / s * 3000) ^ 2 = 3000 ^ 2 ∧
    0 < 3000 / s ∧
    r.velocity = Player.integVel p delta_t := by
  obtain ⟨-, hv, ha, -⟩ := Player.update_decomp rt a delta_t p r hu
  rw [Player.speedSteps] at hv
  rw [Player.accelSteps, Player.speedSteps] at ha
  simp only [hrt, Player.MAX_SPEED] at hv ha hle
  have hns : ¬s < 30 := by linarith
  have hngt : ¬(1500 : ℚ) < s := by linarith
  have hs0 : s ≠ 0 := by linarith
  rw [if_neg hns, if_neg hngt] at hv
  rw [if_pos (by linarith : (1 / 10 : ℚ) < s), if_neg hns, if_neg hngt] at ha
  rw [ha]
  refine ⟨rfl, rfl, ?_, by positivity, hv⟩
  calc ((Player.integVel p delta_t).x / s * 3000) ^ 2 +
        ((Player.integVel p delta_t).y / s * 3000) ^ 2
      = ((Player.integVel p delta_t).x ^ 2 +
         (Player.integVel p delta_t).y ^ 2) * (3000 / s) ^ 2 := by ring
    _ = (s * s) * (3000 / s) ^ 2 := by rw [hs]
    _ = 3000 ^ 2 := by field_simp; ring

/-- Concrete input for the C4 witness: integrated velocity (300, 400),
speed 500. -/
def pW4 : Player := ⟨⟨0, 0⟩, ⟨300, 400⟩, ⟨0, 0⟩, ⟨400, 400⟩, bulletIdle, 0, 64, 64⟩

/-- Result of one update step on `pW4`. -/
def rW4 : Player :=
  ⟨⟨5, 20 / 3⟩, ⟨300, 400⟩, ⟨-1800, -2400⟩, ⟨400, 400⟩, bulletIdle, 0, 64, 64⟩

/-- Witness for the amended C4 at integrated velocity (300, 400), `s = 500`:
the drag is (1800, 2400), of magnitude 3000. -/
theorem C4_amended_drag_witness :
    rW4.acceleration.x = (Player.thrustAccel rtEx actNone).x -
      (Player.integVel pW4 (1 / 60)).x / 500 * 3000 ∧
    rW4.acceleration.y = (Player.thrustAccel rtEx actNone).y -
      (Player.integVel pW4 (1 / 60)).y / 500 * 3000 ∧
    ((Player.integVel pW4 (1 / 60)).x / 500 * 3000) ^ 2 +
      ((Player.integVel pW4 (1 / 60)).y / 500 * 3000) ^ 2 = 3000 ^ 2 ∧
    0 < (3000 : ℚ) / 500 ∧
    rW4.velocity = Player.integVel pW4 (1 / 60) :=
  C4_amended_drag rtEx actNone (1 / 60) pW4 rW4 500
    (by norm_num [Player.update, Player.integPos, Player.integVel, Player.MAX_SPEED,
      Player.SHOOTING_SPEED, rtEx, actNone, pW4, rW4, b2q, bulletIdle, Bullet.update])
    (by norm_num [Player.integVel, pW4, rtEx])
    (by norm_num [Player.integVel, pW4])
    (by norm_num) (by norm_num [Player.MAX_SPEED])

/-- Concrete pair for the C2 counterexample: fully overlapping boxes, both at
rest.  Both `delta_tx` and `delta_ty` substitute infinity. -/
def pColA : Player := ⟨⟨100, 100⟩, ⟨0, 0⟩, ⟨0, 0⟩, ⟨200, 200⟩, bulletIdle, 0, 64, 64⟩

/-- Second player of the C2 counterexample pair (same state). -/
def pColB : Player := ⟨⟨100, 100⟩, ⟨0, 0⟩, ⟨0, 0⟩, ⟨200, 200⟩, bulletIdle, 0, 64, 64⟩

/-- C2 counterexample: with intersecting boxes and equal (here zero)
velocities on both axes, the claim says the resolution performs no rollback
and leaves both positions unchanged.  In fact `delta_t = min(inf, inf) = inf`
and `pos -= vel * inf` evaluates `0.0 * inf = NaN`, so every position
component becomes NaN — not the original finite value. -/
theorem C2_counterexample :
    (Game.parse_player_collision pColA pColB).p1x = XF.nan ∧
    (Game.parse_player_collision pColA pColB).p1x ≠ XF.fin pColA.position.x ∧
    (Game.parse_player_collision pColA pColB).p2x ≠ XF.fin pColB.position.x := by
  have hres : (Game.parse_player_collision pColA pColB).p1x = XF.nan ∧
      (Game.parse_player_collision pColA pColB).p2x = XF.nan := by
    constructor <;>
      norm_num [Game.parse_player_collision, Game.collisionFlags, Game.backtrack,
        Player.get_rect, Rect.colliderect, pColA, pColB, oLT, minO]
  refine ⟨hres.1, ?_, ?_⟩
  · rw [hres.1]; intro hcon; cases hcon
  · rw [hres.2]; intro hcon; cases hcon

/-- C2 amended: when the two boxes intersect and the velocities are
componentwise equal, no division is performed (`delta_tx`/`delta_ty` take the
guarded infinity branch), both axes are flagged and the velocity exchange
leaves both velocities unchanged — but a rollback with `delta_t = inf` IS
performed: each position component becomes -inf when the shared velocity
component is positive, +inf when negative, and NaN when zero
(`Game.backtrack _ _ none`); in particular no position component keeps its
original finite value. -/
theorem C2_amended_infinite_rollback (p1 p2 : Player)
    (hc : Rect.colliderect (Player.get_rect p1) (Player.get_rect p2) = true)
    (hv : p1.velocity = p2.velocity) :
    (Game.parse_player_collision p1 p2).v1 = p1.velocity ∧
    (Game.parse_player_collision p1 p2).v2 = p2.velocity ∧
    (Game.parse_player_collision p1 p2).p1x =
      Game.backtrack p1.position.x p1.velocity.x none ∧
    (Game.parse_player_collision p1 p2).p1y =
      Game.backtrack p1.position.y p1.velocity.y none ∧
    (Game.parse_player_collision p1 p2).p2x =
      Game.backtrack p2.position.x p2.velocity.x none ∧
    (Game.parse_player_collision p1 p2).p2y =
      Game.backtrack p2.position.y p2.velocity.y none ∧
    (Game.parse_player_collision p1 p2).p1x ≠ XF.fin p1.position.x ∧
    (Game.parse_player_collision p1 p2).p2x ≠ XF.fin p2.position.x := by
  have hbk : ∀ q v : ℚ, Game.backtrack q v none ≠ XF.fin q := by
    intro q v
    rw [Game.backtrack]
    split_ifs <;> intro hcon <;> cases hcon
  have hvx : |p1.velocity.x - p2.velocity.x| = 0 := by rw [hv, sub_self, abs_zero]
  have hvy : |p1.velocity.y - p2.velocity.y| = 0 := by rw [hv, sub_self, abs_zero]
  have hflags : Game.collisionFlags p1 p2 = (true, true) := by
    rw [Game.collisionFlags]
    simp only [hvx, hvy, lt_irrefl, if_false, ite_false, oLT]
    simp
  have hres : Game.parse_player_collision p1 p2 =
      { p1x := Game.backtrack p1.position.x p1.velocity.x none,
        p1y := Game.backtrack p1.position.y p1.velocity.y none,
        p2x := Game.backtrack p2.position.x p2.velocity.x none,
        p2y := Game.backtrack p2.position.y p2.velocity.y none,
        v1 := p2.velocity, v2 := p1.velocity } := by
    rw [Game.parse_player_collision]
    simp only [hc, if_true, hflags, hvx, hvy, lt_irrefl, if_false, ite_false, minO]
  rw [hres]
  refine ⟨hv.symm, hv, rfl, rfl, ?_, ?_, hbk _ _, hbk _ _⟩ <;> rw [hv]

/-- First player for the C2 amended witness: overlapping boxes, equal
velocities (7, -4). -/
def pW2a : Player := ⟨⟨300, 300⟩, ⟨7, -4⟩, ⟨0, 0⟩, ⟨200, 200⟩, bulletIdle, 0, 64, 64⟩

/-- Second player for the C2 amended witness. -/
def pW2b : Player := ⟨⟨310, 305⟩, ⟨7, -4⟩, ⟨0, 0⟩, ⟨200, 200⟩, bulletIdle, 1, 64, 64⟩

/-- Witness for the amended C2 at a concrete overlapping pair with equal
nonzero velocities. -/
theorem C2_amended_infinite_rollback_witness :
    (Game.parse_player_collision pW2a pW2b).v1 = pW2a.velocity ∧
    (Game.parse_player_collision pW2a pW2b).v2 = pW2b.velocity ∧
    (Game.parse_player_collision pW2a pW2b).p1x =
      Game.backtrack pW2a.position.x pW2a.velocity.x none ∧
    (Game.parse_player_collision pW2a pW2b).p1y =
      Game.backtrack pW2a.position.y pW2a.velocity.y none ∧
    (Game.parse_player_collision pW2a pW2b).p2x =
      Game.backtrack pW2b.position.x pW2b.velocity.x none ∧
    (Game.parse_player_collision pW2a pW2b).p2y =
      Game.backtrack pW2b.position.y pW2b.velocity.y none ∧
    (Game.parse_player_collision pW2a pW2b).p1x ≠ XF.fin pW2a.position.x ∧
    (Game.parse_player_collision pW2a pW2b).p2x ≠ XF.fin pW2b.position.x :=
  C2_amended_infinite_rollback pW2a pW2b
    (by norm_num [Rect.colliderect, Player.get_rect, pW2a, pW2b]) rfl

/-- The player whose non-live bullet scores in the C3 counterexample. -/
def pNL : Player := ⟨⟨500, 500⟩, ⟨0, 0⟩, ⟨0, 0⟩, ⟨200, 200⟩, bulletReady, 0, 64, 64⟩

/-- An opponent positioned over the parked bullet (an arbitrary state fed to
the per-tick bullet pass). -/
def oppC : Player := ⟨⟨-100, 100⟩, ⟨0, 0⟩, ⟨0, 0⟩, ⟨200, 200⟩, bulletReady, 0, 64, 64⟩

/-- C3 counterexample: the claim says a non-live (parked) projectile never
produces a score increment.  The hit test at line 418 never consults
`was_shot`: with the opponent's box overlapping the parked bullet's box, the
owner's score is incremented although the bullet is not live. -/
theorem C3_counterexample :
    pNL.bullet.was_shot = false ∧ pNL.score = 0 ∧
    (Game.bulletPass 1600 800 oppC pNL).score = 1 := by
  refine ⟨rfl, rfl, ?_⟩
  norm_num [Game.bulletPass, Bullet.get_rect, Player.get_rect, Rect.colliderect,
    pNL, oppC, bulletReady]

/-- C3 amended: in the per-tick bullet pass, the owner's score is incremented
exactly when the bullet's bounding box — captured before the out-of-bounds
reset of lines 413-415 and regardless of `was_shot` — intersects the other
actor's bounding box; on such a hit the bullet is reset.  (For live bullets
this coincides with the claim; the liveness condition, however, is not
checked by the code.) -/
theorem C3_amended_hit_scoring (w h : ℚ) (opp p : Player) :
    ((Game.bulletPass w h opp p).score = p.score + 1 ↔
      Rect.colliderect (Bullet.get_rect p.bullet) (Player.get_rect opp) = true) ∧
    ((Game.bulletPass w h opp p).score = p.score ↔
      Rect.colliderect (Bullet.get_rect p.bullet) (Player.get_rect opp) = false) ∧
    (Rect.colliderect (Bullet.get_rect p.bullet) (Player.get_rect opp) = true →
      (Game.bulletPass w h opp p).bullet = Bullet.reset_bullet) := by
  rw [Game.bulletPass]
  cases hcol : Rect.colliderect (Bullet.get_rect p.bullet) (Player.get_rect opp) with
  | false => simp [hcol]
  | true => simp [hcol]

/-- A live bullet overlapping the opponent for the C3 witness. -/
def pW3 : Player := ⟨⟨500, 500⟩, ⟨0, 0⟩, ⟨0, 0⟩, ⟨200, 200⟩,
  ⟨⟨900, 410⟩, ⟨3000, 0⟩, true⟩, 4, 64, 64⟩

/-- Opponent for the C3 witness, its box overlapping the bullet box. -/
def oppW3 : Player := ⟨⟨910, 400⟩, ⟨0, 0⟩, ⟨0, 0⟩, ⟨200, 200⟩, bulletReady, 0, 64, 64⟩

/-- Witness for the amended C3: on a hit, the bullet is reset (and the score
goes up by one, via the iff). -/
theorem C3_amended_hit_scoring_witness :
    (Game.bulletPass 1600 800 oppW3 pW3).bullet = Bullet.reset_bullet ∧
    (Game.bulletPass 1600 800 oppW3 pW3).score = pW3.score + 1 :=
  ⟨(C3_amended_hit_scoring 1600 800 oppW3 pW3).2.2
    (by norm_num [Rect.colliderect, Bullet.get_rect, Player.get_rect, pW3, oppW3]),
   (C3_amended_hit_scoring 1600 800 oppW3 pW3).1.mpr
    (by norm_num [Rect.colliderect, Bullet.get_rect, Player.get_rect, pW3, oppW3])⟩

set_option maxHeartbeats 2000000 in
/-- C5: under the (physically necessary) side condition that the sprite fits
in the arena, the wall pass leaves the bounding box fully inside
`[0,w] × [0,h]`; for each wall the box crossed, the position is clamped to
exact contact with that wall and the perpendicular velocity component is
replaced by `-0.8` times its old value; an axis that did not cross keeps its
position and velocity.  Both axes act independently (a corner triggers
both). -/
theorem C5_wall_containment (w h : ℚ) (p : Player)
    (hww : p.imgW ≤ w) (hhh : p.imgH ≤ h)
    (_hout : (Player.get_rect p).left < 0 ∨ (Player.get_rect p).top < 0 ∨
            w < (Player.get_rect p).right ∨ h < (Player.get_rect p).bottom) :
    (0 ≤ (Player.get_rect (Game.wallCollision w h p)).left ∧
     (Player.get_rect (Game.wallCollision w h p)).right ≤ w ∧
     0 ≤ (Player.get_rect (Game.wallCollision w h p)).top ∧
     (Player.get_rect (Game.wallCollision w h p)).bottom ≤ h) ∧
    ((Player.get_rect p).left < 0 →
      (Game.wallCollision w h p).position.x = p.imgW / 2 ∧
      (Game.wallCollision w h p).velocity.x = -p.velocity.x * (8 / 10)) ∧
    (w < (Player.get_rect p).right →
      (Game.wallCollision w h p).position.x = w - p.imgW / 2 ∧
      (Game.wallCollision w h p).velocity.x = -p.velocity.x * (8 / 10)) ∧
    ((Player.get_rect p).top < 0 →
      (Game.wallCollision w h p).position.y = p.imgH / 2 ∧
      (Game.wallCollision w h p).velocity.y = -p.velocity.y * (8 / 10)) ∧
    (h < (Player.get_rect p).bottom →
      (Game.wallCollision w h p).position.y = h - p.imgH / 2 ∧
      (Game.wallCollision w h p).velocity.y = -p.velocity.y * (8 / 10)) ∧
    (0 ≤ (Player.get_rect p).left → (Player.get_rect p).right ≤ w →
      (Game.wallCollision w h p).position.x = p.position.x ∧
      (Game.wallCollision w h p).velocity.x = p.velocity.x) ∧
    (0 ≤ (Player.get_rect p).top → (Player.get_rect p).bottom ≤ h →
      (Game.wallCollision w h p).position.y = p.position.y ∧
      (Game.wallCollision w h p).velocity.y = p.velocity.y) := by
  have hpx : (Game.wallCollision w h p).position.x =
      (if w < p.position.x + p.imgW / 2 then w - p.imgW / 2
       else if p.position.x - p.imgW / 2 < 0 then p.imgW / 2 else p.position.x) := rfl
  have hpy : (Game.wallCollision w h p).position.y =
      (if h < p.position.y + p.imgH / 2 then h - p.imgH / 2
       else if p.position.y - p.imgH / 2 < 0 then p.imgH / 2 else p.position.y) := rfl
  have hvx : (Game.wallCollision w h p).velocity.x =
      (if w < p.position.x + p.imgW / 2 then
        -(if p.position.x - p.imgW / 2 < 0 then -p.velocity.x * (8 / 10)
          else p.velocity.x) * (8 / 10)
       else if p.position.x - p.imgW / 2 < 0 then -p.velocity.x * (8 / 10)
       else p.velocity.x) := rfl
  have hvy : (Game.wallCollision w h p).velocity.y =
      (if h < p.position.y + p.imgH / 2 then
        -(if p.position.y - p.imgH / 2 < 0 then -p.velocity.y * (8 / 10)
          else p.velocity.y) * (8 / 10)
       else if p.position.y - p.imgH / 2 < 0 then -p.velocity.y * (8 / 10)
       else p.velocity.y) := rfl
  have himw : (Game.wallCollision w h p).imgW = p.imgW := rfl
  have himh : (Game.wallCollision w h p).imgH = p.imgH := rfl
  simp only [Player.get_rect, himw, himh, hpx, hpy, hvx, hvy]
  split_ifs with hR hL hB hT <;>
    refine ⟨⟨by linarith, by linarith, by linarith, by linarith⟩,
      fun hc5a => ⟨by linarith, by linarith⟩,
      fun hc5b => ⟨by linarith, by linarith⟩,
      fun hc5c => ⟨by linarith, by linarith⟩,
      fun hc5d => ⟨by linarith, by linarith⟩,
      fun hc5e hc5f => ⟨by linarith, by linarith⟩,
      fun hc5g hc5h => ⟨by linarith, by linarith⟩⟩

/-- Concrete player for the C5 witness: box past the left wall. -/
def pW5 : Player := ⟨⟨10, 400⟩, ⟨-50, 7⟩, ⟨0, 0⟩, ⟨200, 200⟩, bulletIdle, 2, 64, 64⟩

/-- Witness for C5: left-wall clamp and bounce at a concrete state. -/
theorem C5_wall_containment_witness :
    (Game.wallCollision 1600 800 pW5).position.x = pW5.imgW / 2 ∧
    (Game.wallCollision 1600 800 pW5).velocity.x = -pW5.velocity.x * (8 / 10) :=
  (C5_wall_containment 1600 800 pW5 (by norm_num [pW5]) (by norm_num [pW5])
    (Or.inl (by norm_num [Player.get_rect, pW5]))).2.1
    (by norm_num [Player.get_rect, pW5])

/-- C8: whenever the two players' boxes intersect, the velocity components of
an axis flagged as the collision axis (`Game.collisionFlags`, the
`is_collision_x`/`is_collision_y` booleans of lines 459-478) are exactly
exchanged between the players, and the components of a non-flagged axis are
left unchanged. -/
theorem C8_elastic_exchange (p1 p2 : Player)
    (hc : Rect.colliderect (Player.get_rect p1) (Player.get_rect p2) = true) :
    ((Game.collisionFlags p1 p2).1 = true →
      (Game.parse_player_collision p1 p2).v1.x = p2.velocity.x ∧
      (Game.parse_player_collision p1 p2).v2.x = p1.velocity.x) ∧
    ((Game.collisionFlags p1 p2).1 = false →
      (Game.parse_player_collision p1 p2).v1.x = p1.velocity.x ∧
      (Game.parse_player_collision p1 p2).v2.x = p2.velocity.x) ∧
    ((Game.collisionFlags p1 p2).2 = true →
      (Game.parse_player_collision p1 p2).v1.y = p2.velocity.y ∧
      (Game.parse_player_collision p1 p2).v2.y = p1.velocity.y) ∧
    ((Game.collisionFlags p1 p2).2 = false →
      (Game.parse_player_collision p1 p2).v1.y = p1.velocity.y ∧
      (Game.parse_player_collision p1 p2).v2.y = p2.velocity.y) := by
  rw [Game.parse_player_collision]
  simp only [hc, if_true]
  refine ⟨fun hf => ?_, fun hf => ?_, fun hf => ?_, fun hf => ?_⟩ <;>
    simp [hf]

/-- First player for the C8 witness: the spec's scenario — full overlap,
velocities (100, 0) and (-100, 0); the x axis is flagged, y is not. -/
def pW8a : Player := ⟨⟨400, 300⟩, ⟨100, 0⟩, ⟨0, 0⟩, ⟨200, 200⟩, bulletIdle, 0, 64, 64⟩

/-- Second player for the C8 witness. -/
def pW8b : Player := ⟨⟨400, 300⟩, ⟨-100, 0⟩, ⟨0, 0⟩, ⟨200, 200⟩, bulletIdle, 0, 64, 64⟩

/-- Witness for C8: velocities swap on the flagged x axis and stay on the
unflagged y axis. -/
theorem C8_elastic_exchange_witness :
    ((Game.parse_player_collision pW8a pW8b).v1.x = pW8b.velocity.x ∧
     (Game.parse_player_collision pW8a pW8b).v2.x = pW8a.velocity.x) ∧
    ((Game.parse_player_collision pW8a pW8b).v1.y = pW8a.velocity.y ∧
     (Game.parse_player_collision pW8a pW8b).v2.y = pW8b.velocity.y) :=
  ⟨(C8_elastic_exchange pW8a pW8b
      (by norm_num [Rect.colliderect, Player.get_rect, pW8a, pW8b])).1
    (by norm_num [Game.collisionFlags, pW8a, pW8b, oLT]),
   (C8_elastic_exchange pW8a pW8b
      (by norm_num [Rect.colliderect, Player.get_rect, pW8a, pW8b])).2.2.2
    (by norm_num [Game.collisionFlags, pW8a, pW8b, oLT])⟩

/-- C9: a projectile whose bounding box satisfies the out-of-bounds
disjunction of line 414 (`right < 0` or `bottom < 0` or `left > width` or
`top > height`) is reset by the bullet pass: parked at the fixed off-arena
point (-100, 100), velocity zeroed, `was_shot` cleared.  (This holds whether
or not the subsequent opponent-hit branch also fires, and the liveness
hypothesis mirrors the claim; the code resets regardless of liveness.) -/
theorem C9_bullet_out_of_bounds_reset (w h : ℚ) (opp p : Player)
    (_hlive : p.bullet.was_shot = true)
    (hout : (Bullet.get_rect p.bullet).right < 0 ∨
            (Bullet.get_rect p.bullet).bottom < 0 ∨
            w < (Bullet.get_rect p.bullet).left ∨
            h < (Bullet.get_rect p.bullet).top) :
    (Game.bulletPass w h opp p).bullet = Bullet.reset_bullet ∧
    (Game.bulletPass w h opp p).bullet.position = ⟨-100, 100⟩ ∧
    (Game.bulletPass w h opp p).bullet.velocity = ⟨0, 0⟩ ∧
    (Game.bulletPass w h opp p).bullet.was_shot = false := by
  have hb : (Game.bulletPass w h opp p).bullet = Bullet.reset_bullet := by
    rw [Game.bulletPass]
    simp only [hout, if_true]
    split_ifs <;> rfl
  exact ⟨hb, by rw [hb]; rfl, by rw [hb]; rfl, by rw [hb]; rfl⟩

/-- Player for the C9 witness: the spec's scenario, a live bullet at
(1700, 400) in a 1600x800 arena (its box's left edge 1690 exceeds 1600). -/
def pW9 : Player := ⟨⟨500, 500⟩, ⟨0, 0⟩, ⟨0, 0⟩, ⟨200, 200⟩,
  ⟨⟨1700, 400⟩, ⟨100, 0⟩, true⟩, 0, 64, 64⟩

/-- Opponent for the C9 witness (anywhere in the arena). -/
def oppW9 : Player := ⟨⟨900, 200⟩, ⟨0, 0⟩, ⟨0, 0⟩, ⟨200, 200⟩, bulletReady, 0, 64, 64⟩

/-- Witness for C9 at the spec's scenario. -/
theorem C9_bullet_out_of_bounds_reset_witness :
    (Game.bulletPass 1600 800 oppW9 pW9).bullet = Bullet.reset_bullet ∧
    (Game.bulletPass 1600 800 oppW9 pW9).bullet.position = ⟨-100, 100⟩ ∧
    (Game.bulletPass 1600 800 oppW9 pW9).bullet.velocity = ⟨0, 0⟩ ∧
    (Game.bulletPass 1600 800 oppW9 pW9).bullet.was_shot = false :=
  C9_bullet_out_of_bounds_reset 1600 800 oppW9 pW9 rfl
    (Or.inr (Or.inr (Or.inl (by norm_num [Bullet.get_rect, pW9]))))

/-- The in-place per-player loop only replaces list elements, so it preserves
the number of players. -/
theorem Game.physLoop_length (rt : ℚ → ℚ) (acts : ℕ → Actions) (w h : ℚ) :
    ∀ (fuel i : ℕ) (ps ps2 : List Player),
      Game.physLoop rt acts w h i fuel ps = some ps2 → ps2.length = ps.length := by
  intro fuel
  induction fuel with
  | zero =>
    intro i ps ps2 hl
    rw [Game.physLoop] at hl
    injection hl with hl
    rw [hl]
  | succ n ih =>
    intro i ps ps2 hl
    rw [Game.physLoop] at hl
    split at hl
    · injection hl with hl; rw [hl]
    · split at hl
      · exact absurd hl (by simp)
      · split at hl
        · exact absurd hl (by simp)
        · exact (ih _ _ _ hl).trans (by simp)

/-- A physics tick never changes the number of players. -/
theorem Game.update_physics_length (rt : ℚ → ℚ) (acts : ℕ → Actions)
    (g g2 : Game) (hu : Game.update_physics rt acts g = some g2) :
    g2.players.length = g.players.length := by
  rw [Game.update_physics] at hu
  cases hl : Game.physLoop rt acts g.screen_width g.screen_height 0
      g.players.length g.players with
  | none => rw [hl] at hu; exact absurd hu (by simp)
  | some ps =>
    rw [hl] at hu
    have hlen := Game.physLoop_length rt acts g.screen_width g.screen_height
      g.players.length 0 g.players ps hl
    dsimp only at hu
    split at hu
    · split at hu
      · injection hu with hu
        rw [← hu]
        exact hlen
      · exact absurd hu (by simp)
    · injection hu with hu
      rw [← hu]
      exact hlen

/-- C10: `add_player` on a game that already has 2 players is the identity
(sequence unchanged in length and contents), and since a fresh game starts
empty, players are only ever added through `add_player`, and a physics tick
preserves the player count, every reachable game state has at most 2
players. -/
theorem C10_at_most_two_players (g : Game) (p : Player) :
    (2 ≤ g.players.length → Game.add_player g p = g) ∧
    (Game.Reachable g → g.players.length ≤ 2) := by
  constructor
  · intro h2
    rw [Game.add_player, if_neg (by omega)]
  · intro hr
    induction hr with
    | start w h => simp
    | add q hg ih =>
      rw [Game.add_player]
      split_ifs with hlt
      · simp only [List.length_append, List.length_cons, List.length_nil]
        omega
      · exact ih
    | phys rt acts hg heq ih =>
      rw [Game.update_physics_length rt acts _ _ heq]
      exact ih

/-- First player added in the C10 witness (the game's own setup values,
lines 614-616). -/
def pW10a : Player := ⟨⟨100, 100⟩, ⟨0, 0⟩, ⟨0, 0⟩, ⟨200, 200⟩, bulletReady, 0, 64, 64⟩

/-- Second player added in the C10 witness. -/
def pW10b : Player := ⟨⟨1600, 800⟩, ⟨0, 0⟩, ⟨0, 0⟩, ⟨200, 200⟩, bulletReady, 0, 64, 64⟩

/-- A reachable two-player game. -/
def gW10 : Game := Game.add_player (Game.add_player ⟨1600, 800, []⟩ pW10a) pW10b

/-- Witness for C10: a third `add_player` on a reachable two-player game is
the identity, and the reachable state has at most 2 players. -/
theorem C10_at_most_two_players_witness :
    Game.add_player gW10 pW10a = gW10 ∧ gW10.players.length ≤ 2 :=
  ⟨(C10_at_most_two_players gW10 pW10a).1 (by norm_num [gW10, Game.add_player]),
   (C10_at_most_two_players gW10 pW10a).2
     (Game.Reachable.add pW10b (Game.Reachable.add pW10a
       (Game.Reachable.start 1600 800)))⟩
